import Mathlib

/-!
Verification of the poetry-dependencies-checker repository.

The development shallowly embeds the two source files:
  - test_poetry_dependencies.py : the freshness check run per dependency
    (`Dependency`, `Dependency.is_frozen`, `Dependency.load`,
    `test_dependencies`), together with the fragment of the external
    `packaging` library it calls (`Version` ordering and
    `SpecifierSet(">=X.Y").contains`).
  - check-dependencies.py : the orchestration wrapper (`_check_python_version`,
    `_ensure_pytest`, `_test_script`, `_run_tests`, `main`).

Versions are modelled without epoch and local segments: the data-model
invariant of the specification restricts version strings to semantic
versions with optional pre-release/build metadata, and the repository never
produces epoch or local versions itself.
-/

/-- A parsed version as `packaging.version.Version` represents it, restricted
to the release digits plus the pre-release, post-release and dev-release
segments.  A pre-release segment is a phase (0 for a, 1 for b, 2 for rc)
paired with its number. -/
structure PyVersion where
  release : List Nat
  pre : Option (Nat × Nat)
  post : Option Nat
  dev : Option Nat
deriving DecidableEq, Repr

/-- `Version.major`: the first release component, 0 when absent. -/
def PyVersion.major (v : PyVersion) : Nat := v.release.headD 0

/-- `Version.minor`: the second release component, 0 when absent. -/
def PyVersion.minor (v : PyVersion) : Nat := (v.release.drop 1).headD 0

/-- `Version.is_prerelease`: true when a pre-release or dev segment is set. -/
def PyVersion.is_prerelease (v : PyVersion) : Bool :=
  v.pre.isSome || v.dev.isSome

/-- Compare release digit lists the way PEP 440 does: the shorter list is
padded with zeros, components are compared left to right. -/
def cmpRelease : List Nat → List Nat → Ordering
  | [], [] => Ordering.eq
  | [], y :: ys => if (y :: ys).all (fun n => n == 0) then Ordering.eq else Ordering.lt
  | x :: xs, [] => if (x :: xs).all (fun n => n == 0) then Ordering.eq else Ordering.gt
  | x :: xs, y :: ys => (compare x y).then (cmpRelease xs ys)

/-- The pre-release component of the PEP 440 sort key.  A version with only a
dev segment sorts below every pre-release (key 0), a pre-release carries its
phase and number (key 1), and a plain release sorts above all of them
(key 2). -/
def preKey (v : PyVersion) : Nat × Nat × Nat :=
  match v.pre with
  | some pn => (1, pn.1, pn.2)
  | none =>
    match v.post, v.dev with
    | none, some _ => (0, 0, 0)
    | _, _ => (2, 0, 0)

/-- The post-release component of the PEP 440 sort key: absence sorts first. -/
def postKey (v : PyVersion) : Nat × Nat :=
  match v.post with
  | some n => (1, n)
  | none => (0, 0)

/-- The dev-release component of the PEP 440 sort key: absence sorts last. -/
def devKey (v : PyVersion) : Nat × Nat :=
  match v.dev with
  | some n => (0, n)
  | none => (1, 0)

/-- Lexicographic comparison of pairs of naturals. -/
def cmpPair (a b : Nat × Nat) : Ordering :=
  (compare a.1 b.1).then (compare a.2 b.2)

/-- Lexicographic comparison of triples of naturals. -/
def cmpTriple (a b : Nat × Nat × Nat) : Ordering :=
  (compare a.1 b.1).then (cmpPair a.2 b.2)

/-- PEP 440 ordering on parsed versions, as `packaging.version.Version`
implements it via its sort key. -/
def cmpVersion (a b : PyVersion) : Ordering :=
  (cmpRelease a.release b.release).then
    ((cmpTriple (preKey a) (preKey b)).then
      ((cmpPair (postKey a) (postKey b)).then
        (cmpPair (devKey a) (devKey b))))

/-- `a >= b` on versions. -/
def pyGe (a b : PyVersion) : Bool := !(cmpVersion a b == Ordering.lt)

/-- Version equality as `Version.__eq__` decides it (sort-key equality, so
for example 2.0 equals 2.0.0). -/
def pyEq (a b : PyVersion) : Bool := cmpVersion a b == Ordering.eq

/-- The pre-release phase rendered as `packaging` prints it. -/
def phaseStr : Nat → String
  | 0 => "a"
  | 1 => "b"
  | _ => "rc"

/-- `str(Version)`: the normalized textual form of a version. -/
def verStr (v : PyVersion) : String :=
  String.intercalate "." (v.release.map toString)
    ++ (match v.pre with
        | some pn => phaseStr pn.1 ++ toString pn.2
        | none => "")
    ++ (match v.post with
        | some n => ".post" ++ toString n
        | none => "")
    ++ (match v.dev with
        | some n => ".dev" ++ toString n
        | none => "")

/-- The `Dependency` named tuple of test_poetry_dependencies.py. -/
structure Dependency where
  name : String
  version_constraint : String
deriving DecidableEq, Repr

/-- Python `str.lower`, on the ASCII names the repository meets. -/
def strToLower (s : String) : String := String.mk (s.data.map Char.toLower)

/-- Python `str.split(".")` on the character list of a string: every maximal
run between dots becomes one part, and empty parts are kept. -/
def splitOnDot (cs : List Char) : List (List Char) :=
  match cs with
  | [] => [[]]
  | c :: rest =>
    let r := splitOnDot rest
    if c == '.' then [] :: r
    else
      match r with
      | [] => [[c]]
      | g :: gs => (c :: g) :: gs

/-- Python `str.isdigit`: at least one character and every character a
digit (the repository only meets ASCII constraint strings, so the ASCII
digit test models it). -/
def pyStrIsdigit (p : List Char) : Bool :=
  !p.isEmpty && p.all Char.isDigit

/-- `Dependency.is_frozen`: the constraint splits on "." into exactly three
parts, each of which satisfies `str.isdigit`. -/
def Dependency.is_frozen (d : Dependency) : Bool :=
  let parts := splitOnDot d.version_constraint.data
  parts.length == 3 && parts.all pyStrIsdigit

/-- The version the specifier `f">={available.major}.{available.minor}"`
parses to. -/
def latest_version_specifier (available : PyVersion) : PyVersion :=
  ⟨[available.major, available.minor], none, none, none⟩

/-- `SpecifierSet(">=X.Y").contains(locked)` with the library defaults: a
specifier built from a non-pre-release version does not admit pre-release
candidates, so `contains` is false for every pre-release or dev version and
otherwise compares with PEP 440 `>=`. -/
def specifier_contains (spec locked : PyVersion) : Bool :=
  !locked.is_prerelease && pyGe locked spec

/-- How the evaluation of one dependency can error before reaching a
verdict: the registry request of `get_latest_version` raising, or the
`locked_versions[...]` dictionary lookup raising KeyError. -/
inductive EvalError
  | registryError
  | lockedVersionMissing
deriving DecidableEq, Repr

/-- The verdict `test_dependencies` reaches for one dependency, carrying the
message it reports. -/
inductive Outcome
  | skipped (msg : String)
  | failed (msg : String)
  | passWarn (msg : String)
  | passClean (msg : String)
deriving DecidableEq, Repr

instance instDecEqExcept {ε α : Type} [DecidableEq ε] [DecidableEq α] :
    DecidableEq (Except ε α) := fun
  | Except.ok a, Except.ok b =>
    if h : a = b then isTrue (by rw [h])
    else isFalse (by intro hc; injection hc; contradiction)
  | Except.ok _, Except.error _ => isFalse (by intro hc; exact Except.noConfusion hc)
  | Except.error _, Except.ok _ => isFalse (by intro hc; exact Except.noConfusion hc)
  | Except.error e, Except.error f =>
    if h : e = f then isTrue (by rw [h])
    else isFalse (by intro hc; injection hc; contradiction)

/-- The body of `test_dependencies`, in source order: fetch the latest
version from the registry, look up the locked version, skip frozen
dependencies, assert the `>=major.minor` specifier, then warn or print
depending on exact equality.  The registry response and the lock-file
mapping are passed in as data. -/
def test_dependencies (dep : Dependency) (latest : Except Unit PyVersion)
    (locked_versions : List (String × PyVersion)) : Except EvalError Outcome :=
  match latest with
  | Except.error _ => Except.error EvalError.registryError
  | Except.ok available_version =>
    match locked_versions.lookup (strToLower dep.name) with
    | none => Except.error EvalError.lockedVersionMissing
    | some locked_version =>
      if dep.is_frozen then
        Except.ok (Outcome.skipped
          (dep.name ++ " is frozen by constraint " ++ dep.version_constraint
            ++ ". Version " ++ verStr locked_version ++ " is used, but "
            ++ verStr available_version ++ " is available."))
      else if !(specifier_contains (latest_version_specifier available_version) locked_version) then
        Except.ok (Outcome.failed
          (dep.name ++ " is not up to date, " ++ verStr locked_version
            ++ " < " ++ verStr available_version))
      else if !(pyEq locked_version available_version) then
        Except.ok (Outcome.passWarn
          (dep.name ++ " - version " ++ verStr available_version
            ++ " is available, but " ++ verStr locked_version ++ " is used"))
      else
        Except.ok (Outcome.passClean
          (dep.name ++ " is on latest version at " ++ verStr locked_version))

example : test_dependencies ⟨"django", "^1.0"⟩
    (Except.ok ⟨[2, 0, 0], none, none, none⟩)
    [("django", ⟨[1, 9, 0], none, none, none⟩)]
    = Except.ok (Outcome.failed "django is not up to date, 1.9.0 < 2.0.0") := by
  decide

example : test_dependencies ⟨"django", "^2.0"⟩
    (Except.ok ⟨[2, 5, 1], none, none, none⟩)
    [("django", ⟨[2, 5, 0], none, none, none⟩)]
    = Except.ok (Outcome.passWarn "django - version 2.5.1 is available, but 2.5.0 is used") := by
  decide

example : test_dependencies ⟨"django", "^2.0"⟩
    (Except.ok ⟨[2, 3, 1], none, none, none⟩)
    [("django", ⟨[2, 3, 1], none, none, none⟩)]
    = Except.ok (Outcome.passClean "django is on latest version at 2.3.1") := by
  decide

example : test_dependencies ⟨"pkg", "1.4.2"⟩
    (Except.ok ⟨[1, 9, 0], none, none, none⟩)
    [("pkg", ⟨[1, 4, 2], none, none, none⟩)]
    = Except.ok (Outcome.skipped
        "pkg is frozen by constraint 1.4.2. Version 1.4.2 is used, but 1.9.0 is available.") := by
  decide

example : test_dependencies ⟨"pkg", "^2.0"⟩
    (Except.ok ⟨[2, 0, 0], none, none, none⟩)
    [("pkg", ⟨[2, 5, 0], some (2, 1), none, none⟩)]
    = Except.ok (Outcome.failed "pkg is not up to date, 2.5.0rc1 < 2.0.0") := by
  decide

/-- A scalar TOML value inside an inline table. -/
inductive TomlScalar
  | strS (s : String)
  | intS (n : Int)
  | boolS (b : Bool)
deriving DecidableEq, Repr

/-- A TOML value as the dependency table of pyproject.toml can hold it, in
the forms the loader distinguishes: strings, non-iterable scalars and
inline tables (whose own values the loader never looks into beyond the
"version" field, so one level of scalars suffices). -/
inductive TomlValue
  | strV (s : String)
  | intV (n : Int)
  | boolV (b : Bool)
  | tableV (entries : List (String × TomlScalar))
deriving DecidableEq, Repr

/-- How `Dependency.load` can raise: `"version" in version_info` applied to
a non-iterable value (an integer or a boolean) raises TypeError at the
named entry. -/
inductive LoadError
  | typeErr (atName : String)
deriving DecidableEq, Repr

/-- `Dependency.load`, consumed to the end as the parametrize decorator
does: walk the dependency table of pyproject.toml, drop the entry whose
lowercased name is "python", yield the constraint value for string values
and for tables carrying a "version" key, and warn and skip tables without
one.  Produces the yielded (name, constraint) pairs together with the
warnings, or the TypeError the membership test raises on a non-iterable
value. -/
def Dependency.load : List (String × TomlValue) →
    Except LoadError (List (String × TomlScalar) × List String)
  | [] => Except.ok ([], [])
  | (name, version_info) :: rest =>
    if strToLower name == "python" then Dependency.load rest
    else
      match version_info with
      | TomlValue.strV s =>
        (match Dependency.load rest with
          | Except.error e => Except.error e
          | Except.ok (ds, ws) => Except.ok ((name, TomlScalar.strS s) :: ds, ws))
      | TomlValue.tableV entries =>
        (match entries.lookup "version" with
          | some v =>
            (match Dependency.load rest with
              | Except.error e => Except.error e
              | Except.ok (ds, ws) => Except.ok ((name, v) :: ds, ws))
          | none =>
            (match Dependency.load rest with
              | Except.error e => Except.error e
              | Except.ok (ds, ws) =>
                Except.ok (ds, ("Failed to obtain version constraint for " ++ name) :: ws)))
      | _ => Except.error (LoadError.typeErr name)

example : Dependency.load
    [("python", TomlValue.strV "^3.8"),
     ("requests", TomlValue.strV "^2.0"),
     ("oldlib", TomlValue.tableV [("version", TomlScalar.strS "1.2.3"), ("python", TomlScalar.strS "<3.11")]),
     ("gitdep", TomlValue.tableV [("git", TomlScalar.strS "https://example.com/r.git")])]
    = Except.ok
        ([("requests", TomlScalar.strS "^2.0"), ("oldlib", TomlScalar.strS "1.2.3")],
         ["Failed to obtain version constraint for gitdep"]) := by
  decide

example : Dependency.load [("weird", TomlValue.intV 5)]
    = Except.error (LoadError.typeErr "weird") := by
  decide

/-- The relevant state of the host for one run of the wrapper script: the
interpreter version, the command-line choices, and which of the external
actions succeed. -/
structure WrapperEnv where
  py_major : Nat
  py_minor : Nat
  custom_pytest : Bool
  no_pytest_install : Bool
  pytest_present : Bool
  pip_install_ok : Bool
  fetch_ok : Bool
  tests_returncode : Nat
deriving DecidableEq, Repr

/-- The IOError subclasses the wrapper can raise during setup, one per
raise site (the download failure of `_test_script` is a URLError, itself
an OSError alias of IOError). -/
inductive SetupErr
  | unsupportedPython
  | pytestMissingInstallProhibited
  | pytestInstallFailed
  | fetchFailed
deriving DecidableEq, Repr

/-- `_check_python_version`: returns when major >= 3 and minor >= 6, raises
IOError otherwise. -/
def check_python_version (e : WrapperEnv) : Except SetupErr Unit :=
  if e.py_major ≥ 3 && e.py_minor ≥ 6 then Except.ok ()
  else Except.error SetupErr.unsupportedPython

/-- `_ensure_pytest`: a custom executable short-circuits; otherwise probe
`python -m pytest --version`, and on failure either raise (install
prohibited) or try `pip install pytest`, raising when that fails too. -/
def ensure_pytest (e : WrapperEnv) : Except SetupErr Unit :=
  if e.custom_pytest then Except.ok ()
  else if e.pytest_present then Except.ok ()
  else if e.no_pytest_install then Except.error SetupErr.pytestMissingInstallProhibited
  else if e.pip_install_ok then Except.ok ()
  else Except.error SetupErr.pytestInstallFailed

/-- `_test_script`: downloading the remote test definitions either succeeds
or raises. -/
def fetch_test_script (e : WrapperEnv) : Except SetupErr Unit :=
  if e.fetch_ok then Except.ok () else Except.error SetupErr.fetchFailed

/-- `_run_tests`: the exit code of the pytest subprocess. -/
def run_tests (e : WrapperEnv) : Nat := e.tests_returncode

/-- The body of the try block of `main`, in source order. -/
def setup_phase (e : WrapperEnv) : Except SetupErr Nat :=
  match check_python_version e with
  | Except.error err => Except.error err
  | Except.ok _ =>
    match ensure_pytest e with
    | Except.error err => Except.error err
    | Except.ok _ =>
      match fetch_test_script e with
      | Except.error err => Except.error err
      | Except.ok _ => Except.ok (run_tests e)

/-- What one run of `main` produced: the value returned to `sys.exit`,
whether an "Error: ..." line was printed, and whether the pytest subprocess
(the dependency check) ran at all. -/
structure MainResult where
  exit_code : Nat
  error_reported : Bool
  tests_ran : Bool
deriving DecidableEq, Repr

/-- `main` of check-dependencies.py (named `wrapper_main` because `main` is
reserved for executable entry points): run the setup steps and the tests,
catching IOError by reporting it and returning 1. -/
def wrapper_main (e : WrapperEnv) : MainResult :=
  match setup_phase e with
  | Except.ok rc => ⟨rc, false, true⟩
  | Except.error _ => ⟨1, true, false⟩

example : wrapper_main ⟨3, 5, false, false, true, true, true, 0⟩ = ⟨1, true, false⟩ := by
  decide

example : wrapper_main ⟨3, 11, false, false, true, true, true, 7⟩ = ⟨7, false, true⟩ := by
  decide

theorem then_ne_lt {a b : Ordering} (ha : a ≠ Ordering.lt) (hb : b ≠ Ordering.lt) :
    a.then b ≠ Ordering.lt := by
  cases a with
  | lt => exact absurd rfl ha
  | eq => exact hb
  | gt => intro hc; exact Ordering.noConfusion hc

theorem then_eq_lt {b : Ordering} : Ordering.lt.then b = Ordering.lt := rfl

theorem cmpRelease_nil_right_ne_lt (r : List Nat) : cmpRelease r [] ≠ Ordering.lt := by
  cases r with
  | nil => simp [cmpRelease]
  | cons c cs =>
    rw [cmpRelease]
    split <;> simp

theorem cmpRelease_lt_of_below_floor (r : List Nat) (x y : Nat)
    (h : r.headD 0 < x ∨ (r.headD 0 = x ∧ (r.drop 1).headD 0 < y)) :
    cmpRelease r [x, y] = Ordering.lt := by
  match r with
  | [] =>
    simp at h
    rw [cmpRelease]
    have hz : ([x, y].all fun n => n == 0) = false := by
      simp only [List.all_cons, List.all_nil, Bool.and_true, Bool.and_eq_false_iff,
        beq_eq_false_iff_ne]
      omega
    rw [hz]
    simp
  | [m] =>
    simp at h
    rw [cmpRelease]
    rcases h with h | ⟨h1, h2⟩
    · rw [Nat.compare_eq_lt.mpr h, then_eq_lt]
    · rw [h1, Nat.compare_eq_eq.mpr rfl]
      show cmpRelease [] [y] = Ordering.lt
      rw [cmpRelease]
      have hz : ([y].all fun n => n == 0) = false := by
        simp only [List.all_cons, List.all_nil, Bool.and_true, beq_eq_false_iff_ne]
        omega
      rw [hz]
      simp
  | m :: n :: rest =>
    simp at h
    rw [cmpRelease]
    rcases h with h | ⟨h1, h2⟩
    · rw [Nat.compare_eq_lt.mpr h, then_eq_lt]
    · rw [h1, Nat.compare_eq_eq.mpr rfl]
      show cmpRelease (n :: rest) [y] = Ordering.lt
      rw [cmpRelease, Nat.compare_eq_lt.mpr h2, then_eq_lt]

theorem cmpRelease_ne_lt_of_at_floor (r : List Nat) (x y : Nat)
    (h : x < r.headD 0 ∨ (r.headD 0 = x ∧ y ≤ (r.drop 1).headD 0)) :
    cmpRelease r [x, y] ≠ Ordering.lt := by
  match r with
  | [] =>
    simp at h
    obtain ⟨h1, h2⟩ := h
    rw [cmpRelease]
    have hz : ([x, y].all fun n => n == 0) = true := by
      simp only [List.all_cons, List.all_nil, Bool.and_true, Bool.and_eq_true, beq_iff_eq]
      omega
    rw [hz]
    simp
  | [m] =>
    simp at h
    rcases h with h | ⟨h1, h2⟩
    · rw [cmpRelease, Nat.compare_eq_gt.mpr h]
      intro hc; exact Ordering.noConfusion hc
    · rw [cmpRelease, h1, Nat.compare_eq_eq.mpr rfl]
      show cmpRelease [] [y] ≠ Ordering.lt
      rw [cmpRelease]
      have hz : ([y].all fun n => n == 0) = true := by
        simp only [List.all_cons, List.all_nil, Bool.and_true, beq_iff_eq]
        omega
      rw [hz]
      simp
  | m :: n :: rest =>
    simp at h
    rcases h with h | ⟨h1, h2⟩
    · rw [cmpRelease, Nat.compare_eq_gt.mpr h]
      intro hc; exact Ordering.noConfusion hc
    · rw [cmpRelease, h1, Nat.compare_eq_eq.mpr rfl]
      show cmpRelease (n :: rest) [y] ≠ Ordering.lt
      rw [cmpRelease]
      rcases Nat.lt_or_ge y n with hy | hy
      · rw [Nat.compare_eq_gt.mpr hy]
        intro hc; exact Ordering.noConfusion hc
      · have hyn : y = n := Nat.le_antisymm h2 hy
        rw [hyn, Nat.compare_eq_eq.mpr rfl]
        exact cmpRelease_nil_right_ne_lt rest

theorem specifier_contains_eq_false_of_below_floor (locked : PyVersion) (x y : Nat)
    (h : locked.major < x ∨ (locked.major = x ∧ locked.minor < y)) :
    specifier_contains ⟨[x, y], none, none, none⟩ locked = false := by
  have hlt : cmpVersion locked ⟨[x, y], none, none, none⟩ = Ordering.lt := by
    rw [cmpVersion, cmpRelease_lt_of_below_floor locked.release x y h, then_eq_lt]
  rw [specifier_contains, pyGe, hlt]
  exact Bool.and_false _

theorem specifier_contains_of_at_floor (locked : PyVersion) (x y : Nat)
    (hpre : locked.is_prerelease = false)
    (h : x < locked.major ∨ (locked.major = x ∧ y ≤ locked.minor)) :
    specifier_contains ⟨[x, y], none, none, none⟩ locked = true := by
  have hp : locked.pre = none := by
    cases hval : locked.pre with
    | none => rfl
    | some z => rw [PyVersion.is_prerelease, hval] at hpre; simp at hpre
  have hd : locked.dev = none := by
    cases hval : locked.dev with
    | none => rfl
    | some z => rw [PyVersion.is_prerelease, hval] at hpre; simp at hpre
  have hkeys : ((cmpTriple (preKey locked) (preKey ⟨[x, y], none, none, none⟩)).then
      ((cmpPair (postKey locked) (postKey ⟨[x, y], none, none, none⟩)).then
        (cmpPair (devKey locked) (devKey ⟨[x, y], none, none, none⟩)))) ≠ Ordering.lt := by
    have hpk : cmpTriple (preKey locked) (preKey ⟨[x, y], none, none, none⟩) = Ordering.eq := by
      rw [preKey, preKey, hp, hd]
      cases locked.post <;> rfl
    have hdk : cmpPair (devKey locked) (devKey ⟨[x, y], none, none, none⟩) = Ordering.eq := by
      rw [devKey, devKey, hd]
      rfl
    have hok : cmpPair (postKey locked) (postKey ⟨[x, y], none, none, none⟩) ≠ Ordering.lt := by
      rw [postKey, postKey]
      cases locked.post with
      | none => simp [cmpPair]; decide
      | some pn =>
        show cmpPair (1, pn) (0, 0) ≠ Ordering.lt
        rw [cmpPair]
        rw [show compare 1 0 = Ordering.gt from Nat.compare_eq_gt.mpr Nat.one_pos]
        intro hc; exact Ordering.noConfusion hc
    rw [hpk]
    show ((cmpPair (postKey locked) _).then _) ≠ Ordering.lt
    refine then_ne_lt hok ?_
    rw [hdk]
    intro hc; exact Ordering.noConfusion hc
  have hver : cmpVersion locked ⟨[x, y], none, none, none⟩ ≠ Ordering.lt := by
    rw [cmpVersion]
    exact then_ne_lt (cmpRelease_ne_lt_of_at_floor locked.release x y h) hkeys
  rw [specifier_contains, PyVersion.is_prerelease, hp, hd, pyGe]
  have hb : (cmpVersion locked ⟨[x, y], none, none, none⟩ == Ordering.lt) = false := by
    cases hc : cmpVersion locked ⟨[x, y], none, none, none⟩ with
    | lt => exact absurd hc hver
    | eq => rfl
    | gt => rfl
  rw [hb]
  rfl

/-- Claim C1 as stated is false: the check does not fail exactly when the
locked version falls below the available major.minor floor.  Locked version
3.0.0a1 has major 3 above available 2.0.0, so it is not below the floor,
yet the non-frozen check fails, because the specifier built from a plain
release rejects every pre-release candidate. -/
theorem C1_counterexample :
    ¬((⟨[3, 0, 0], some (0, 1), none, none⟩ : PyVersion).major
        < (⟨[2, 0, 0], none, none, none⟩ : PyVersion).major ∨
      ((⟨[3, 0, 0], some (0, 1), none, none⟩ : PyVersion).major
          = (⟨[2, 0, 0], none, none, none⟩ : PyVersion).major ∧
        (⟨[3, 0, 0], some (0, 1), none, none⟩ : PyVersion).minor
          < (⟨[2, 0, 0], none, none, none⟩ : PyVersion).minor)) ∧
    (⟨"flask", "^2.0"⟩ : Dependency).is_frozen = false ∧
    test_dependencies ⟨"flask", "^2.0"⟩ (Except.ok ⟨[2, 0, 0], none, none, none⟩)
      [("flask", ⟨[3, 0, 0], some (0, 1), none, none⟩)]
      = Except.ok (Outcome.failed "flask is not up to date, 3.0.0a1 < 2.0.0") := by
  decide

/-- Claim C1 (amended): for every dependency whose constraint is not a fully
pinned version, if the locked version falls below the available version
major.minor floor — locked.major < available.major, or locked.major =
available.major and locked.minor < available.minor — then the freshness
check fails and raises an assertion identifying both versions. -/
theorem C1_check_fails_below_floor (dep : Dependency) (locked available : PyVersion)
    (lv : List (String × PyVersion))
    (hfz : dep.is_frozen = false)
    (hlk : lv.lookup (strToLower dep.name) = some locked)
    (h : locked.major < available.major ∨
      (locked.major = available.major ∧ locked.minor < available.minor)) :
    test_dependencies dep (Except.ok available) lv =
      Except.ok (Outcome.failed (dep.name ++ " is not up to date, "
        ++ verStr locked ++ " < " ++ verStr available)) := by
  have hc : specifier_contains (latest_version_specifier available) locked = false := by
    rw [latest_version_specifier]
    exact specifier_contains_eq_false_of_below_floor locked available.major available.minor h
  simp [test_dependencies, hlk, hfz, hc]

/-- Claim C1 witness: the amended theorem applied at constraint "^1.0",
locked 1.9.0, available 2.0.0. -/
theorem C1_witness :
    (⟨"django", "^1.0"⟩ : Dependency).is_frozen = false ∧
    test_dependencies ⟨"django", "^1.0"⟩ (Except.ok ⟨[2, 0, 0], none, none, none⟩)
      [("django", ⟨[1, 9, 0], none, none, none⟩)]
      = Except.ok (Outcome.failed "django is not up to date, 1.9.0 < 2.0.0") :=
  ⟨by decide,
    C1_check_fails_below_floor ⟨"django", "^1.0"⟩ ⟨[1, 9, 0], none, none, none⟩
      ⟨[2, 0, 0], none, none, none⟩ [("django", ⟨[1, 9, 0], none, none, none⟩)]
      (by decide) (by decide) (by decide)⟩

/-- Claim C2 as stated is false: a locked pre-release at or above the
available major.minor line does not satisfy the range.  Locked 2.5.0rc1 has
major.minor 2.5, at or above the 2.0 line of available 2.0.0, yet the
specifier rejects it and the check fails. -/
theorem C2_counterexample :
    ((⟨[2, 5, 0], some (2, 1), none, none⟩ : PyVersion).major
        = (⟨[2, 0, 0], none, none, none⟩ : PyVersion).major ∧
      (⟨[2, 0, 0], none, none, none⟩ : PyVersion).minor
        ≤ (⟨[2, 5, 0], some (2, 1), none, none⟩ : PyVersion).minor) ∧
    specifier_contains (latest_version_specifier ⟨[2, 0, 0], none, none, none⟩)
      ⟨[2, 5, 0], some (2, 1), none, none⟩ = false ∧
    test_dependencies ⟨"pkg", "^2.0"⟩ (Except.ok ⟨[2, 0, 0], none, none, none⟩)
      [("pkg", ⟨[2, 5, 0], some (2, 1), none, none⟩)]
      = Except.ok (Outcome.failed "pkg is not up to date, 2.5.0rc1 < 2.0.0") := by
  decide

/-- Claim C2 (amended): for every non-frozen dependency, the acceptance
range accepts any non-pre-release locked version whose major.minor is at
least the available major.minor, including lower-patch variants on that
line, and the check then passes (with or without a warning); pre-release
and dev locked versions are rejected by the range even at or above that
line. -/
theorem C2_range_accepts_at_floor (dep : Dependency) (locked available : PyVersion)
    (lv : List (String × PyVersion))
    (hfz : dep.is_frozen = false)
    (hlk : lv.lookup (strToLower dep.name) = some locked)
    (hpre : locked.is_prerelease = false)
    (h : available.major < locked.major ∨
      (locked.major = available.major ∧ available.minor ≤ locked.minor)) :
    specifier_contains (latest_version_specifier available) locked = true ∧
    test_dependencies dep (Except.ok available) lv =
      Except.ok (if pyEq locked available
        then Outcome.passClean (dep.name ++ " is on latest version at " ++ verStr locked)
        else Outcome.passWarn (dep.name ++ " - version " ++ verStr available
          ++ " is available, but " ++ verStr locked ++ " is used")) := by
  have hc : specifier_contains (latest_version_specifier available) locked = true := by
    rw [latest_version_specifier]
    exact specifier_contains_of_at_floor locked available.major available.minor hpre h
  refine ⟨hc, ?_⟩
  by_cases hq : pyEq locked available = true
  · simp [test_dependencies, hlk, hfz, hc, hq]
  · rw [Bool.not_eq_true] at hq
    simp [test_dependencies, hlk, hfz, hc, hq]

/-- Claim C2 witness: the amended theorem applied at constraint "^2.0",
locked 2.5.0, available 2.0.0 (equal major, lower available minor). -/
theorem C2_witness :
    (⟨"yarl", "^2.0"⟩ : Dependency).is_frozen = false ∧
    (⟨[2, 5, 0], none, none, none⟩ : PyVersion).is_prerelease = false ∧
    specifier_contains (latest_version_specifier ⟨[2, 0, 0], none, none, none⟩)
      ⟨[2, 5, 0], none, none, none⟩ = true ∧
    test_dependencies ⟨"yarl", "^2.0"⟩ (Except.ok ⟨[2, 0, 0], none, none, none⟩)
      [("yarl", ⟨[2, 5, 0], none, none, none⟩)]
      = Except.ok (if pyEq ⟨[2, 5, 0], none, none, none⟩ ⟨[2, 0, 0], none, none, none⟩
          then Outcome.passClean ("yarl" ++ " is on latest version at "
            ++ verStr ⟨[2, 5, 0], none, none, none⟩)
          else Outcome.passWarn ("yarl" ++ " - version "
            ++ verStr ⟨[2, 0, 0], none, none, none⟩ ++ " is available, but "
            ++ verStr ⟨[2, 5, 0], none, none, none⟩ ++ " is used")) := by
  refine ⟨by decide, by decide, ?_, ?_⟩
  · exact (C2_range_accepts_at_floor ⟨"yarl", "^2.0"⟩ ⟨[2, 5, 0], none, none, none⟩
      ⟨[2, 0, 0], none, none, none⟩ [("yarl", ⟨[2, 5, 0], none, none, none⟩)]
      (by decide) (by decide) (by decide) (by decide)).1
  · exact (C2_range_accepts_at_floor ⟨"yarl", "^2.0"⟩ ⟨[2, 5, 0], none, none, none⟩
      ⟨[2, 0, 0], none, none, none⟩ [("yarl", ⟨[2, 5, 0], none, none, none⟩)]
      (by decide) (by decide) (by decide) (by decide)).2

/-- Claim C3: is_frozen holds exactly when the constraint splits on "." into
three parts that each consist of at least one character, all digits; and
every frozen dependency is skipped with the informational message naming
the constraint, the locked version and the available version, whatever the
version drift. -/
theorem C3_frozen_always_skipped (d : Dependency) (available locked : PyVersion)
    (lv : List (String × PyVersion)) :
    (d.is_frozen = true ↔
      ((splitOnDot d.version_constraint.data).length = 3 ∧
        ∀ p ∈ splitOnDot d.version_constraint.data, p ≠ [] ∧ ∀ c ∈ p, c.isDigit = true)) ∧
    (d.is_frozen = true → lv.lookup (strToLower d.name) = some locked →
      test_dependencies d (Except.ok available) lv =
        Except.ok (Outcome.skipped (d.name ++ " is frozen by constraint "
          ++ d.version_constraint ++ ". Version " ++ verStr locked ++ " is used, but "
          ++ verStr available ++ " is available."))) := by
  constructor
  · rw [Dependency.is_frozen]
    simp [pyStrIsdigit, List.all_eq_true, List.isEmpty_iff, Bool.and_eq_true]
  · intro hfz hlk
    simp [test_dependencies, hlk, hfz]

/-- Claim C3 witness: the frozen constraint "2022.9.24" is skipped although
the available version 2024.1.1 is far ahead of the locked 2022.9.24. -/
theorem C3_witness :
    (⟨"certifi", "2022.9.24"⟩ : Dependency).is_frozen = true ∧
    test_dependencies ⟨"certifi", "2022.9.24"⟩ (Except.ok ⟨[2024, 1, 1], none, none, none⟩)
      [("certifi", ⟨[2022, 9, 24], none, none, none⟩)]
      = Except.ok (Outcome.skipped
          "certifi is frozen by constraint 2022.9.24. Version 2022.9.24 is used, but 2024.1.1 is available.") :=
  ⟨by decide,
    (C3_frozen_always_skipped ⟨"certifi", "2022.9.24"⟩ ⟨[2024, 1, 1], none, none, none⟩
      ⟨[2022, 9, 24], none, none, none⟩
      [("certifi", ⟨[2022, 9, 24], none, none, none⟩)]).2 (by decide) (by decide)⟩

/-- Claim C4: for every non-frozen dependency accepted by the range, an
exactly equal locked and available version passes cleanly with no warning,
and a locked version different from the available one passes with the
newer-version warning. -/
theorem C4_pass_warning_split (dep : Dependency) (locked available : PyVersion)
    (lv : List (String × PyVersion))
    (hfz : dep.is_frozen = false)
    (hlk : lv.lookup (strToLower dep.name) = some locked)
    (hc : specifier_contains (latest_version_specifier available) locked = true) :
    (pyEq locked available = true →
      test_dependencies dep (Except.ok available) lv =
        Except.ok (Outcome.passClean (dep.name ++ " is on latest version at "
          ++ verStr locked))) ∧
    (pyEq locked available = false →
      test_dependencies dep (Except.ok available) lv =
        Except.ok (Outcome.passWarn (dep.name ++ " - version " ++ verStr available
          ++ " is available, but " ++ verStr locked ++ " is used"))) := by
  constructor <;> intro hq <;> simp [test_dependencies, hlk, hfz, hc, hq]

/-- Claim C4 witness: the theorem applied at constraint "^2.0" with locked
and available both 2.3.1 (clean pass) and at available 2.3.2 with locked
2.3.1 (pass with warning). -/
theorem C4_witness :
    specifier_contains (latest_version_specifier ⟨[2, 3, 1], none, none, none⟩)
      ⟨[2, 3, 1], none, none, none⟩ = true ∧
    test_dependencies ⟨"attrs", "^2.0"⟩ (Except.ok ⟨[2, 3, 1], none, none, none⟩)
      [("attrs", ⟨[2, 3, 1], none, none, none⟩)]
      = Except.ok (Outcome.passClean "attrs is on latest version at 2.3.1") ∧
    test_dependencies ⟨"attrs", "^2.0"⟩ (Except.ok ⟨[2, 3, 2], none, none, none⟩)
      [("attrs", ⟨[2, 3, 1], none, none, none⟩)]
      = Except.ok (Outcome.passWarn "attrs - version 2.3.2 is available, but 2.3.1 is used") :=
  ⟨by decide,
    (C4_pass_warning_split ⟨"attrs", "^2.0"⟩ ⟨[2, 3, 1], none, none, none⟩
      ⟨[2, 3, 1], none, none, none⟩ [("attrs", ⟨[2, 3, 1], none, none, none⟩)]
      (by decide) (by decide) (by decide)).1 (by decide),
    (C4_pass_warning_split ⟨"attrs", "^2.0"⟩ ⟨[2, 3, 1], none, none, none⟩
      ⟨[2, 3, 2], none, none, none⟩ [("attrs", ⟨[2, 3, 1], none, none, none⟩)]
      (by decide) (by decide) (by decide)).2 (by decide)⟩

/-- Claim C5: for every dependency whose lowercased name is absent from the
locked-versions mapping, the evaluation propagates the lookup error; it is
never converted into a warning or a skip, frozen or not. -/
theorem C5_missing_locked_version_errors (dep : Dependency) (available : PyVersion)
    (lv : List (String × PyVersion))
    (h : lv.lookup (strToLower dep.name) = none) :
    test_dependencies dep (Except.ok available) lv =
      Except.error EvalError.lockedVersionMissing := by
  simp [test_dependencies, h]

/-- Claim C5 witness: a dependency declared in the manifest but absent from
an empty lock mapping errors, even though its constraint is frozen. -/
theorem C5_witness :
    List.lookup (strToLower "left-pad") ([] : List (String × PyVersion)) = none ∧
    test_dependencies ⟨"left-pad", "1.0.0"⟩ (Except.ok ⟨[1, 0, 0], none, none, none⟩) []
      = Except.error EvalError.lockedVersionMissing :=
  ⟨by decide,
    C5_missing_locked_version_errors ⟨"left-pad", "1.0.0"⟩ ⟨[1, 0, 0], none, none, none⟩ []
      (by decide)⟩

/-- Claim C6 as stated is false: a manifest entry whose value is neither a
string nor a structured value containing "version" does not always warn and
continue.  An integer value is not iterable, so the membership test raises
TypeError and the loader errors at that entry. -/
theorem C6_counterexample :
    Dependency.load [("weird", TomlValue.intV 5)]
      = Except.error (LoadError.typeErr "weird") := by
  decide

/-- Claim C6 (amended): for every manifest entry whose value is a structured
value (an inline table) without a "version" key, the loader emits the
non-fatal warning naming the dependency and excludes the entry from the
produced sequence, and such a table entry never raises an error; an entry
whose value is a non-iterable scalar instead raises a TypeError. -/
theorem C6_table_without_version_warns (name : String)
    (entries : List (String × TomlScalar)) (rest : List (String × TomlValue))
    (hn : strToLower name ≠ "python")
    (hv : entries.lookup "version" = none) :
    Dependency.load ((name, TomlValue.tableV entries) :: rest) =
      Except.map (fun r => (r.1, ("Failed to obtain version constraint for " ++ name) :: r.2))
        (Dependency.load rest) := by
  have hb : (strToLower name == "python") = false := beq_eq_false_iff_ne.mpr hn
  rw [Dependency.load, hb]
  simp only [Bool.false_eq_true, if_false, hv]
  cases hres : Dependency.load rest with
  | error e => rfl
  | ok pr =>
    obtain ⟨ds, ws⟩ := pr
    rfl

/-- Claim C6 witness: the amended theorem applied at a git-only table entry,
yielding a warning and no dependency for it. -/
theorem C6_witness :
    strToLower "gitdep" ≠ "python" ∧
    List.lookup "version" [("git", TomlScalar.strS "https://example.com/r.git")] = none ∧
    Dependency.load
      [("gitdep", TomlValue.tableV [("git", TomlScalar.strS "https://example.com/r.git")]),
        ("requests", TomlValue.strV "^2.0")] =
      Except.map
        (fun r => (r.1, ("Failed to obtain version constraint for " ++ "gitdep") :: r.2))
        (Dependency.load [("requests", TomlValue.strV "^2.0")]) :=
  ⟨by decide, by decide,
    C6_table_without_version_warns "gitdep"
      [("git", TomlScalar.strS "https://example.com/r.git")]
      [("requests", TomlValue.strV "^2.0")] (by decide) (by decide)⟩

/-- Claim C7: no pair produced by the manifest loader has a name whose
lowercase form is "python"; the python entry is always excluded and hence
never evaluated. -/
theorem C7_python_never_loaded (table : List (String × TomlValue))
    (res : List (String × TomlScalar) × List String)
    (hres : Dependency.load table = Except.ok res) :
    ∀ p ∈ res.1, strToLower p.1 ≠ "python" := by
  induction table generalizing res with
  | nil =>
    rw [Dependency.load] at hres
    cases hres
    intro p hp
    simp at hp
  | cons hd tl ih =>
    obtain ⟨name, vi⟩ := hd
    by_cases hpy : (strToLower name == "python") = true
    all_goals cases vi with
    | strV s =>
      rw [Dependency.load] at hres
      first
      | (rw [if_pos hpy] at hres
         exact ih res hres)
      | (rw [if_neg hpy] at hres
         have hnm : strToLower name ≠ "python" := by
           rw [Bool.not_eq_true] at hpy
           exact beq_eq_false_iff_ne.mp hpy
         cases hrest : Dependency.load tl with
         | error e => rw [hrest] at hres; simp at hres
         | ok pr =>
           obtain ⟨ds, ws⟩ := pr
           rw [hrest] at hres
           dsimp only at hres
           injection hres with hres
           subst hres
           intro p hp
           rcases List.mem_cons.mp hp with hp | hp
           · rw [hp]
             exact hnm
           · exact ih (ds, ws) hrest p hp)
    | intV n =>
      rw [Dependency.load.eq_4 name (TomlValue.intV n) tl
        (fun _ h => TomlValue.noConfusion h) (fun _ h => TomlValue.noConfusion h)] at hres
      first
      | (rw [if_pos hpy] at hres
         exact ih res hres)
      | (rw [if_neg hpy] at hres
         simp at hres)
    | boolV b =>
      rw [Dependency.load.eq_4 name (TomlValue.boolV b) tl
        (fun _ h => TomlValue.noConfusion h) (fun _ h => TomlValue.noConfusion h)] at hres
      first
      | (rw [if_pos hpy] at hres
         exact ih res hres)
      | (rw [if_neg hpy] at hres
         simp at hres)
    | tableV entries =>
      rw [Dependency.load] at hres
      first
      | (rw [if_pos hpy] at hres
         exact ih res hres)
      | (rw [if_neg hpy] at hres
         have hnm : strToLower name ≠ "python" := by
           rw [Bool.not_eq_true] at hpy
           exact beq_eq_false_iff_ne.mp hpy
         cases hver : entries.lookup "version" with
         | some v =>
           rw [hver] at hres
           cases hrest : Dependency.load tl with
           | error e => rw [hrest] at hres; simp at hres
           | ok pr =>
             obtain ⟨ds, ws⟩ := pr
             rw [hrest] at hres
             dsimp only at hres
             injection hres with hres
             subst hres
             intro p hp
             rcases List.mem_cons.mp hp with hp | hp
             · rw [hp]
               exact hnm
             · exact ih (ds, ws) hrest p hp
         | none =>
           rw [hver] at hres
           cases hrest : Dependency.load tl with
           | error e => rw [hrest] at hres; simp at hres
           | ok pr =>
             obtain ⟨ds, ws⟩ := pr
             rw [hrest] at hres
             dsimp only at hres
             injection hres with hres
             subst hres
             intro p hp
             exact ih (ds, ws) hrest p hp)

/-- Claim C7 witness: a manifest with a "Python" entry loads to a sequence
without it, and the surviving entry is not python. -/
theorem C7_witness :
    Dependency.load [("Python", TomlValue.strV "^3.8"), ("requests", TomlValue.strV "^2.0")]
      = Except.ok ([("requests", TomlScalar.strS "^2.0")], []) ∧
    strToLower ("requests", TomlScalar.strS "^2.0").1 ≠ "python" :=
  ⟨by decide,
    C7_python_never_loaded
      [("Python", TomlValue.strV "^3.8"), ("requests", TomlValue.strV "^2.0")]
      ([("requests", TomlScalar.strS "^2.0")], []) (by decide)
      ("requests", TomlScalar.strS "^2.0") (by simp)⟩

/-- Claim C8: a runtime version below Python 3.6 makes the setup phase fail
with the unsupported-version error, and whenever any setup step errors
(unsupported runtime, pytest missing with install prohibited, install
failure, or test-definition fetch failure), main reports the error,
returns exit code 1, and the dependency check never runs. -/
theorem C8_setup_errors_exit_one (e : WrapperEnv) :
    ((e.py_major < 3 ∨ (e.py_major = 3 ∧ e.py_minor < 6)) →
      setup_phase e = Except.error SetupErr.unsupportedPython) ∧
    (∀ err : SetupErr, setup_phase e = Except.error err →
      wrapper_main e = ⟨1, true, false⟩) := by
  constructor
  · intro h
    have hchk : check_python_version e = Except.error SetupErr.unsupportedPython := by
      rw [check_python_version]
      have hb : (decide (e.py_major ≥ 3) && decide (e.py_minor ≥ 6)) = false := by
        simp only [Bool.and_eq_false_iff, decide_eq_false_iff_not]
        omega
      rw [hb]
      simp
    rw [setup_phase, hchk]
  · intro err herr
    rw [wrapper_main, herr]

/-- Claim C8 witness: the theorem applied at Python 2.7; the wrapper exits
with code 1, reports the error and runs no test. -/
theorem C8_witness :
    (2 < 3 ∨ (2 = 3 ∧ 7 < 6)) ∧
    setup_phase ⟨2, 7, false, false, true, true, true, 0⟩
      = Except.error SetupErr.unsupportedPython ∧
    wrapper_main ⟨2, 7, false, false, true, true, true, 0⟩ = ⟨1, true, false⟩ :=
  ⟨Or.inl (by decide),
    (C8_setup_errors_exit_one ⟨2, 7, false, false, true, true, true, 0⟩).1
      (Or.inl (by decide)),
    (C8_setup_errors_exit_one ⟨2, 7, false, false, true, true, true, 0⟩).2
      SetupErr.unsupportedPython
      ((C8_setup_errors_exit_one ⟨2, 7, false, false, true, true, true, 0⟩).1
        (Or.inl (by decide)))⟩

/-- Claim C9: for two non-frozen dependencies with the same name, the
freshness check result is identical whatever the two constraint strings
are; the constraint is consulted only by the frozenness test. -/
theorem C9_constraint_noninterference (d1 d2 : Dependency)
    (latest : Except Unit PyVersion) (lv : List (String × PyVersion))
    (hn : d1.name = d2.name)
    (h1 : d1.is_frozen = false) (h2 : d2.is_frozen = false) :
    test_dependencies d1 latest lv = test_dependencies d2 latest lv := by
  cases latest with
  | error e => rfl
  | ok available =>
    simp [test_dependencies, hn, h1, h2]

/-- Claim C9 witness: two different non-frozen constraints for the same
package produce the same verdict. -/
theorem C9_witness :
    (⟨"aiohttp", "^1.0"⟩ : Dependency).name = (⟨"aiohttp", "~1.2"⟩ : Dependency).name ∧
    (⟨"aiohttp", "^1.0"⟩ : Dependency).is_frozen = false ∧
    (⟨"aiohttp", "~1.2"⟩ : Dependency).is_frozen = false ∧
    test_dependencies ⟨"aiohttp", "^1.0"⟩ (Except.ok ⟨[1, 3, 0], none, none, none⟩)
        [("aiohttp", ⟨[1, 2, 0], none, none, none⟩)]
      = test_dependencies ⟨"aiohttp", "~1.2"⟩ (Except.ok ⟨[1, 3, 0], none, none, none⟩)
        [("aiohttp", ⟨[1, 2, 0], none, none, none⟩)] :=
  ⟨rfl, by decide, by decide,
    C9_constraint_noninterference ⟨"aiohttp", "^1.0"⟩ ⟨"aiohttp", "~1.2"⟩
      (Except.ok ⟨[1, 3, 0], none, none, none⟩)
      [("aiohttp", ⟨[1, 2, 0], none, none, none⟩)]
      rfl (by decide) (by decide)⟩

/-- Claim C10: the registry fetch is evaluated before the frozen-skip
decision, so a failing registry request for a frozen dependency makes the
evaluation error instead of skipping. -/
theorem C10_registry_error_beats_frozen_skip (dep : Dependency)
    (lv : List (String × PyVersion))
    (_hfz : dep.is_frozen = true) :
    test_dependencies dep (Except.error ()) lv = Except.error EvalError.registryError :=
  rfl

/-- Claim C10 witness: a frozen dependency with a failing registry request
errors rather than being skipped. -/
theorem C10_witness :
    (⟨"numpy", "1.24.0"⟩ : Dependency).is_frozen = true ∧
    test_dependencies ⟨"numpy", "1.24.0"⟩ (Except.error ())
      [("numpy", ⟨[1, 24, 0], none, none, none⟩)]
      = Except.error EvalError.registryError :=
  ⟨by decide,
    C10_registry_error_beats_frozen_skip ⟨"numpy", "1.24.0"⟩
      [("numpy", ⟨[1, 24, 0], none, none, none⟩)] (by decide)⟩
